import Mathlib

/-!
Shallow embedding of `lldb/tools/lldb-server/lldb-platform.cpp` (the lldb-server
platform-mode daemon).  Pure control flow of the source functions is translated
into Lean functions; interactions with the operating system (sockets, process
launching, the filesystem, the packet collaborator) are supplied as explicit
environment records, so that each source branch is driven by the same data the
real code would observe.  Line numbers in comments refer to lldb-platform.cpp.
-/

namespace LLDBPlatform

/-- Outcome of the whole process: `exited c` models a call to `exit(c)`,
`returned c` models a `return c` from `main_platform`. -/
inductive ExitOutcome
  | exited (code : Int)
  | returned (code : Int)
deriving Repr, DecidableEq

/-- Embeds `lldb_private::Status`: success or failure with a message. -/
inductive Status
  | success
  | fail (msg : String)
deriving Repr, DecidableEq

/-- Embeds `Status::Fail()`. -/
def Status.isFail : Status → Bool
  | .success => false
  | .fail _ => true

/-- The constant `LLDB_INVALID_PROCESS_ID` (0 in lldb-defines.h). -/
def LLDB_INVALID_PROCESS_ID : Nat := 0

/-- Modelled from the spec: the Port Pool
(`GDBRemoteCommunicationServerPlatform::PortMap`), whose class definition is not
part of the excerpted source.  Entries pair an allowed port with the pid of the
owning worker; `none` means the port is free.  The entry list is kept in
ascending port order so that allocation follows the ascending policy of the
spec. -/
structure PortMap where
  entries : List (Nat × Option Nat)
deriving Repr, DecidableEq

/-- The initially empty global `gdbserver_portmap` (line 152). -/
def PortMap.empty : PortMap := ⟨[]⟩

/-- Modelled from the spec: the `PortMap(min, max)` range constructor used at
line 370; the contiguous range of allowed ports, all free. -/
def PortMap.range (lo hi : Nat) : PortMap :=
  ⟨(List.range' lo (hi - lo + 1)).map (fun p => (p, none))⟩

/-- Ordered insertion of a newly allowed (free) port, keeping ascending order
and ignoring a port that is already allowed. -/
def insertAllowedPort : List (Nat × Option Nat) → Nat → List (Nat × Option Nat)
  | [], p => [(p, none)]
  | (q, o) :: rest, p =>
    if p < q then (p, none) :: (q, o) :: rest
    else if p = q then (q, o) :: rest
    else (q, o) :: insertAllowedPort rest p

/-- Modelled from the spec: `PortMap::AllowPort` (line 342) adds one explicitly
allowed port to the pool. -/
def PortMap.AllowPort (pm : PortMap) (port : Nat) : PortMap :=
  ⟨insertAllowedPort pm.entries port⟩

/-- Modelled from the spec: `PortMap::GetNextAvailablePort` (line 470) returns
the first free allowed port in ascending order, or nothing when all allowed
ports are assigned. -/
def PortMap.GetNextAvailablePort (pm : PortMap) : Option Nat :=
  (pm.entries.find? (fun e => e.2.isNone)).map (fun e => e.1)

/-- Modelled from the spec: `PortMap::AssociatePortWithProcess` (line 233)
records the worker owning a port. -/
def PortMap.AssociatePortWithProcess (pm : PortMap) (port pid : Nat) : PortMap :=
  ⟨pm.entries.map (fun e => if e.1 = port then (e.1, some pid) else e)⟩

/-- Modelled from the spec: `PortMap::FreePort` (line 489) unconditionally
returns a port to the free set. -/
def PortMap.FreePort (pm : PortMap) (port : Nat) : PortMap :=
  ⟨pm.entries.map (fun e => if e.1 = port then (e.1, none) else e)⟩

/-- Modelled from the spec: `PortMap::FreePortForProcess` (line 157) frees
whatever port is associated with the given worker. -/
def PortMap.FreePortForProcess (pm : PortMap) (pid : Nat) : PortMap :=
  ⟨pm.entries.map (fun e => if e.2 = some pid then (e.1, none) else e)⟩

/-- The ports a pool currently allows (free or assigned). -/
def PortMap.allowed (pm : PortMap) : List Nat := pm.entries.map (fun e => e.1)

/-! ## spawn_process (lines 160-243) -/

/-- Environment for one `spawn_process` call: the results the operating system
hands back at each fallible step.  `childPid` is `launch_info.GetProcessID()`
after a successful `Host::LaunchProcess`. -/
structure SpawnEnv where
  sharedSocketErr : Option String
  launchErr : Option String
  childPid : Nat
  completeSendingErr : Option String
deriving Repr, DecidableEq

/-- Result of `spawn_process`: its returned `Status`, the portmap after the
call, whether `AssociatePortWithProcess` ran, and the pid passed to
`Host::Kill` when the handoff completion failed. -/
structure SpawnResult where
  status : Status
  portmap : PortMap
  associated : Bool
  killed : Option Nat
deriving Repr, DecidableEq

/-- Embeds `spawn_process` (lines 160-243): build the `SharedSocket` (may fail), launch
the re-invoked child (may fail), reject an invalid pid, associate the reserved
port with the child under the portmap mutex, then complete the socket handoff;
on handoff failure kill the child and return the error. -/
def spawn_process (env : SpawnEnv) (gdb_port : Nat) (pm : PortMap) : SpawnResult :=
  match env.sharedSocketErr with
  | some e => ⟨.fail e, pm, false, none⟩
  | none =>
    match env.launchErr with
    | some e => ⟨.fail e, pm, false, none⟩
    | none =>
      if env.childPid = LLDB_INVALID_PROCESS_ID then ⟨.fail ("invalid pid"), pm, false, none⟩
      else
        let pm2 := pm.AssociatePortWithProcess gdb_port env.childPid
        match env.completeSendingErr with
        | some e => ⟨.fail e, pm2, true, some env.childPid⟩
        | none => ⟨.success, pm2, true, none⟩

/-! ## client_handle (lines 121-150) -/

/-- Result of `platform.LaunchGDBServer` (line 130): the collaborator reports
success or failure, and fills pid, an optional port and a socket name. -/
structure LaunchResult where
  success : Bool
  errMsg : String
  pid : Nat
  port : Option Nat
  socketName : String
deriving Repr, DecidableEq

/-- One observed result of `GetPacketAndSendResponse` (line 143): whether the
call returned `PacketResult::Success`, and the `interrupt` / `done` flags it
set. -/
structure PacketStep where
  ok : Bool
  interrupt : Bool
  done : Bool
deriving Repr, DecidableEq

/-- Environment of one `client_handle` call: connection state, the inferior
arguments, the stub-launch collaborator result, and the stream of packet-loop
results the collaborator would produce. -/
structure ClientEnv where
  connected : Bool
  inferiorArgs : List String
  launch : LaunchResult
  packets : List PacketStep
deriving Repr, DecidableEq

/-- Observable trace of one `client_handle` call. `sentOnConnection` records
bytes `client_handle` itself writes to the peer outside the packet loop (the
source performs no such write).  `invalidDeref` flags the dereference of an
empty optional port at line 134. -/
structure ClientTrace where
  returnedEarly : Bool
  stubLaunchAttempts : Nat
  pendingGdbServer : Option (Nat × Nat × String)
  invalidDeref : Bool
  stderrOut : List String
  sentOnConnection : List String
  loopEntered : Bool
  packetIterations : Nat
  printedDisconnected : Bool
deriving Repr, DecidableEq

/-- The packet loop of `client_handle` (lines 139-147): counts
`GetPacketAndSendResponse` calls; a non-success result breaks, `interrupt` or
`done` ends the loop, and the count stops when the modelled stream runs out. -/
def packetLoop : List PacketStep → Nat
  | [] => 0
  | s :: rest =>
    if s.ok = false then 1
    else if s.interrupt || s.done then 1
    else 1 + packetLoop rest

/-- Embeds `client_handle` (lines 121-150): return early when not connected; when
inferior arguments were supplied, launch the debug stub exactly once — on
success record the pending stub (dereferencing the optional port), on failure
print a diagnostic to stderr — then run the packet loop and print
"Disconnected.". -/
def client_handle (env : ClientEnv) : ClientTrace :=
  if env.connected = false then
    { returnedEarly := true, stubLaunchAttempts := 0, pendingGdbServer := none,
      invalidDeref := false, stderrOut := [], sentOnConnection := [],
      loopEntered := false, packetIterations := 0, printedDisconnected := false }
  else
    let launched : Bool := !env.inferiorArgs.isEmpty
    { returnedEarly := false,
      stubLaunchAttempts := if launched then 1 else 0,
      pendingGdbServer :=
        if launched && env.launch.success then
          some (env.launch.pid, env.launch.port.getD 0, env.launch.socketName)
        else none,
      invalidDeref := launched && env.launch.success && env.launch.port.isNone,
      stderrOut :=
        if launched && !env.launch.success then
          ["failed to start gdbserver: " ++ env.launch.errMsg]
        else [],
      sentOnConnection := [],
      loopEntered := true,
      packetIterations := packetLoop env.packets,
      printedDisconnected := true }

/-- Whether a `client_handle` trace reported anything to the peer over the
connection (outside the packet-exchange collaborator). -/
def reportedToPeer (t : ClientTrace) : Bool := !t.sentOnConnection.isEmpty

/-! ## Filesystem model and save_socket_id_to_file (lines 101-119) -/

/-- Embeds `lldb_private::FileSpec`, reduced to the two components the source reads:
`GetDirectory()` and the file name. -/
structure FileSpec where
  dir : String
  filename : String
deriving Repr, DecidableEq

/-- Embeds `FileSpec::GetPath()`. -/
def FileSpec.GetPath (f : FileSpec) : String := f.dir ++ "/" ++ f.filename

/-- The filesystem as observed by the daemon: existing directories and file
contents by path. -/
structure FS where
  dirs : List String
  files : List (String × String)
deriving Repr, DecidableEq

/-- Install content at a path (the effect of a completed rename onto the
path). -/
def FS.setFile (fs : FS) (p c : String) : FS :=
  ⟨fs.dirs, (p, c) :: fs.files.filter (fun e => e.1 != p)⟩

/-- Remove a file. -/
def FS.removeFile (fs : FS) (p : String) : FS :=
  ⟨fs.dirs, fs.files.filter (fun e => e.1 != p)⟩

/-- Content at a path. -/
def FS.lookup (fs : FS) (p : String) : Option String :=
  (fs.files.find? (fun e => e.1 == p)).map (fun e => e.2)

/-- Modelled from the spec: `llvm::sys::fs::create_directory` (line 104) —
creates the missing directory, ignoring an already existing one. -/
def create_directory (fs : FS) (d : String) : FS :=
  if d ∈ fs.dirs then fs else ⟨d :: fs.dirs, fs.files⟩

/-- Events of the parent-mode daemon, in program order.  The first three are
filesystem events of the discovery-file write. -/
inductive PEvent
  | createdDir (d : String)
  | wroteTemp (tmp content : String)
  | published (tmp dest : String)
  | accepted
  | connectionEstablished
  | droppedNoPort
  | spawnAttempt (port : Nat)
  | spawnFailedFreedPort (port : Nat)
  | connDeleted
  | acceptorReset
  | sessionRun
  | serverExiting
deriving Repr, DecidableEq

/-- Whether an event touches the filesystem. -/
def PEvent.isFsEvent : PEvent → Bool
  | .createdDir _ => true
  | .wroteTemp _ _ => true
  | .published _ _ => true
  | _ => false

/-- Embeds `save_socket_id_to_file` (lines 101-119): create the parent directory of the
target path, then write the socket id with `llvm::writeToOutput`.  The two
fallible external steps are driven by the environment errors.  The write itself
is modelled from the spec: `llvm::writeToOutput` writes the full content to a
temporary file and then publishes it by renaming onto the destination
(write-then-publish, never in place). -/
def save_socket_id_to_file (socket_id : String) (file_spec : FileSpec) (fs : FS)
    (createDirErr writeErr : Option String) : Status × FS × List PEvent :=
  match createDirErr with
  | some e =>
    (.fail ("Failed to create directory " ++ file_spec.dir ++ ": " ++ e), fs, [])
  | none =>
    let fs1 := create_directory fs file_spec.dir
    match writeErr with
    | some e =>
      (.fail ("Failed to atomically write file " ++ file_spec.GetPath ++ ": " ++ e),
       fs1, [.createdDir file_spec.dir])
    | none =>
      let tmp := file_spec.GetPath ++ ".tmp"
      (.success,
       ((fs1.setFile tmp socket_id).removeFile tmp).setFile file_spec.GetPath socket_id,
       [.createdDir file_spec.dir, .wroteTemp tmp socket_id,
        .published tmp file_spec.GetPath])

/-! ## Option parsing (lines 54-67, 284-363) -/

/-- One option recognized by the `getopt_long_only` loop.  `helpOrUnknown`
covers the `-h` and `?` cases.  An option-taking event carries its `optarg`;
`socketFile` carries the `FileSpec` built by `SetFile` from a nonempty
`optarg`. -/
inductive OptEvent
  | flagServer
  | listen (optarg : String)
  | logFile (optarg : String)
  | logChannels (optarg : String)
  | socketFile (fspec : FileSpec)
  | portOffset (optarg : String)
  | gdbserverPort (optarg : String)
  | minPort (optarg : String)
  | maxPort (optarg : String)
  | childPlatformFd (optarg : String)
  | helpOrUnknown
deriving Repr, DecidableEq

/-- The constant `LOW_PORT` on non-Apple hosts (line 73). -/
def LOW_PORT : Nat := 1024

/-- The constant `HIGH_PORT` on non-Apple hosts (line 74). -/
def HIGH_PORT : Nat := 49151

/-- Decimal digit accumulation over the characters of an option argument;
fails on a non-digit character. -/
def decimalValue : List Char → Nat → Option Nat
  | [], acc => some acc
  | c :: rest, acc =>
    if c.isDigit then decimalValue rest (acc * 10 + (c.toNat - 48)) else none

/-- Modelled from the spec: `llvm::to_integer` parsing an option argument into
an unsigned integer of the given bit width (the source parses into `uint16_t`
or `uint64_t`); succeeds exactly on nonempty decimal digit strings whose value
fits the width. -/
def to_integer (width : Nat) (s : String) : Option Nat :=
  match s.data with
  | [] => none
  | c :: rest =>
    match decimalValue (c :: rest) 0 with
    | none => none
    | some v => if v < 2 ^ width then some v else none

/-- The mutable locals of `main_platform` filled in by the getopt loop,
together with the global `g_server` flag and the global portmap mutated by
`AllowPort`. -/
structure OptState where
  listenHostPort : String
  logFile : String
  logChannels : String
  socketFile : Option FileSpec
  portOffset : Nat
  minPort : Nat
  maxPort : Nat
  fd : Option Nat
  showUsage : Bool
  optionError : Nat
  server : Bool
  portmap : PortMap
deriving Repr, DecidableEq

/-- State before the getopt loop: empty strings, zero ports, invalid fd, no
error, empty global portmap. -/
def initOptState : OptState :=
  { listenHostPort := "", logFile := "", logChannels := "", socketFile := none,
    portOffset := 0, minPort := 0, maxPort := 0, fd := none,
    showUsage := false, optionError := 0, server := false, portmap := PortMap.empty }

/-- One iteration of the getopt switch (lines 286-362). -/
def processOption (st : OptState) (ev : OptEvent) : OptState :=
  match ev with
  | .flagServer => {st with server := true}
  | .listen s => {st with listenHostPort := st.listenHostPort ++ s}
  | .logFile s => if s.isEmpty then st else {st with logFile := s}
  | .logChannels s => if s.isEmpty then st else {st with logChannels := s}
  | .socketFile fspec => {st with socketFile := some fspec}
  | .portOffset s =>
    match to_integer 16 s with
    | none => {st with optionError := 4}
    | some v =>
      if v < LOW_PORT || HIGH_PORT < v then {st with portOffset := v, optionError := 5}
      else {st with portOffset := v}
  | .gdbserverPort s =>
    match to_integer 16 s with
    | none => {st with optionError := 2}
    | some v =>
      if v < LOW_PORT || HIGH_PORT < v then {st with optionError := 1}
      else {st with portmap := st.portmap.AllowPort v}
  | .minPort s =>
    match to_integer 16 s with
    | none => {st with optionError := 2}
    | some v =>
      if v < LOW_PORT || HIGH_PORT < v then {st with optionError := 1}
      else {st with minPort := v}
  | .maxPort s =>
    match to_integer 16 s with
    | none => {st with optionError := 2}
    | some v =>
      if v < LOW_PORT || HIGH_PORT < v then {st with optionError := 1}
      else {st with maxPort := v}
  | .childPlatformFd s =>
    match to_integer 64 s with
    | none => {st with optionError := 6}
    | some v => {st with fd := some v}
  | .helpOrUnknown => {st with showUsage := true}

/-- The whole getopt loop (lines 284-363). -/
def parseOptions (opts : List OptEvent) : OptState :=
  opts.foldl processOption initOptState

/-- Result of the startup checks that follow option parsing: either the process
leaves `main_platform` (with a flag recording whether `display_usage` printed),
or startup proceeds with the final option state. -/
inductive StartupResult
  | exit (o : ExitOutcome) (usagePrinted : Bool)
  | proceed (st : OptState)
deriving Repr, DecidableEq

/-- Lines 365-387: fail hard when logging setup fails (`return -1`); build the
range portmap when `min` is set and below `max`, otherwise flag configuration
error 3 when either bound is set; require a listen address or an inherited fd,
else show usage; finally, when usage was requested or a configuration error was
recorded, call `display_usage` — which itself calls `exit(0)` (line 98), so the
following `exit(option_error)` at line 386 is never reached and the process
exits with status 0. -/
def afterParse (st : OptState) (setupLoggingOk : Bool) : StartupResult :=
  if setupLoggingOk = false then .exit (.returned (-1)) false
  else
    let st1 :=
      if st.minPort ≠ 0 ∧ st.minPort < st.maxPort then
        {st with portmap := PortMap.range st.minPort st.maxPort}
      else if st.minPort ≠ 0 ∨ st.maxPort ≠ 0 then
        {st with optionError := 3}
      else st
    let st2 :=
      if st1.listenHostPort = "" ∧ st1.fd = none then {st1 with showUsage := true}
      else st1
    if st2.showUsage ∨ st2.optionError ≠ 0 then .exit (.exited 0) true
    else .proceed st2

/-- Whether startup was rejected (the process left `main_platform` before any
socket work). -/
def startupRejected : StartupResult → Bool
  | .exit _ _ => true
  | .proceed _ => false

/-- The portmap startup proceeds with, when it proceeds. -/
def startupPortMap : StartupResult → Option PortMap
  | .exit _ _ => none
  | .proceed st => some st.portmap

/-! ## Child mode (lines 395-421) -/

/-- Environment of the child-mode branch: whether
`SharedSocket::GetNativeSocket` resolved the inherited token, and the session
environment of the resulting `client_handle` call. -/
structure ChildEnv where
  resolveErr : Option String
  clientEnv : ClientEnv
deriving Repr, DecidableEq

/-- Outcome of the child-mode branch. -/
structure ChildOut where
  outcome : ExitOutcome
  trace : Option ClientTrace
  sessionPortMap : Option PortMap
deriving Repr, DecidableEq

/-- Lines 395-421: a supplied `--child-platform-fd` token selects child mode.
The combination with `--listen` is rejected (`return socket_error`, that is
-1); a token that does not resolve to a live socket is fatal (same return);
otherwise the portmap is moved into the platform, the session runs via
`client_handle`, and the child returns 0. -/
def childMode (st : OptState) (env : ChildEnv) : ChildOut :=
  if st.listenHostPort ≠ "" then ⟨.returned (-1), none, none⟩
  else
    match env.resolveErr with
    | some _ => ⟨.returned (-1), none, none⟩
    | none => ⟨.returned 0, some (client_handle env.clientEnv), some st.portmap⟩

/-! ## Parent mode: the accept loop (lines 423-517) -/

/-- Environment of one accept-loop iteration: the `Accept` result and, for
server mode, the environment of the `spawn_process` call this connection would
trigger. -/
structure IterEnv where
  acceptErr : Option String
  spawnEnv : SpawnEnv
deriving Repr, DecidableEq

/-- Result of one server-mode iteration of the accept loop. -/
structure IterOut where
  portmap : PortMap
  events : List PEvent
  exit : Option ExitOutcome
deriving Repr, DecidableEq

/-- One server-mode iteration of the accept loop (lines 456-501): an `Accept`
failure exits the process (`exit(socket_error)`); otherwise, under the portmap
mutex, take the next available port — when none is available print the
diagnostic and drop the connection; when a port is available call
`spawn_process`, and on its failure free the reserved port under the mutex; in
every accepted case delete the parent connection and continue the loop. -/
def serverIteration (pm : PortMap) (env : IterEnv) : IterOut :=
  match env.acceptErr with
  | some _ => ⟨pm, [], some (.exited (-1))⟩
  | none =>
    match pm.GetNextAvailablePort with
    | none =>
      ⟨pm, [.accepted, .connectionEstablished, .droppedNoPort, .connDeleted], none⟩
    | some p =>
      let r := spawn_process env.spawnEnv p pm
      if r.status.isFail then
        ⟨r.portmap.FreePort p,
         [.accepted, .connectionEstablished, .spawnAttempt p,
          .spawnFailedFreedPort p, .connDeleted], none⟩
      else
        ⟨r.portmap,
         [.accepted, .connectionEstablished, .spawnAttempt p, .connDeleted], none⟩

/-- The server-mode accept loop over the modelled iteration environments; the
real loop never ends on its own, so an exhausted environment list leaves the
exit outcome empty (the daemon is still accepting). -/
def serverLoop : PortMap → List IterEnv → IterOut
  | pm, [] => ⟨pm, [], none⟩
  | pm, e :: rest =>
    match (serverIteration pm e).exit with
    | some o => ⟨(serverIteration pm e).portmap, (serverIteration pm e).events, some o⟩
    | none =>
      ⟨(serverLoop (serverIteration pm e).portmap rest).portmap,
       (serverIteration pm e).events ++ (serverLoop (serverIteration pm e).portmap rest).events,
       (serverLoop (serverIteration pm e).portmap rest).exit⟩

/-- Environment of the parent-mode branch. -/
structure ParentEnv where
  acceptorCreateErr : Option String
  listenErr : Option String
  socketId : String
  createDirErr : Option String
  writeErr : Option String
  fs0 : FS
  iters : List IterEnv
  sessionEnv : ClientEnv
deriving Repr, DecidableEq

/-- Observable outcome of a whole `main_platform` run.  `outcome = none` means
the daemon is still running (server mode, modelled environment exhausted). -/
structure MainOut where
  outcome : Option ExitOutcome
  usagePrinted : Bool
  events : List PEvent
  fs : FS
  childTrace : Option ClientTrace
  sessionTrace : Option ClientTrace
  sessionPortMap : Option PortMap
  portmap : PortMap
deriving Repr, DecidableEq

/-- The accept loop proper (lines 456-517), after acceptor creation, listen and
the optional discovery-file write.  In server mode it runs `serverLoop`.
Otherwise (single-shot): one `Accept` — failure exits the process; success
destroys the acceptor, moves the whole portmap into the platform, runs the one
session via `client_handle`, leaves the loop (its condition `g_server` is
false), prints the exiting message and returns 0. -/
def runAcceptLoop (st : OptState) (env : ParentEnv) (fsNow : FS)
    (pre : List PEvent) : MainOut :=
  if st.server then
    let r := serverLoop st.portmap env.iters
    { outcome := r.exit, usagePrinted := false, events := pre ++ r.events,
      fs := fsNow, childTrace := none, sessionTrace := none,
      sessionPortMap := none, portmap := r.portmap }
  else
    match env.iters with
    | [] =>
      { outcome := none, usagePrinted := false, events := pre, fs := fsNow,
        childTrace := none, sessionTrace := none, sessionPortMap := none,
        portmap := st.portmap }
    | ienv :: _ =>
      match ienv.acceptErr with
      | some _ =>
        { outcome := some (.exited (-1)), usagePrinted := false, events := pre,
          fs := fsNow, childTrace := none, sessionTrace := none,
          sessionPortMap := none, portmap := st.portmap }
      | none =>
        { outcome := some (.returned 0), usagePrinted := false,
          events := pre ++ [.accepted, .connectionEstablished, .acceptorReset,
                            .sessionRun, .serverExiting],
          fs := fsNow, childTrace := none,
          sessionTrace := some (client_handle env.sessionEnv),
          sessionPortMap := some st.portmap, portmap := PortMap.empty }

/-- The parent-mode branch (lines 423-517): acceptor creation and listen
failures exit the process (`exit(socket_error)`); when a socket file is
configured it is written before the loop, and a failed write returns 1;
then the accept loop runs. -/
def parentMode (st : OptState) (env : ParentEnv) : MainOut :=
  if env.acceptorCreateErr.isSome || env.listenErr.isSome then
    { outcome := some (.exited (-1)), usagePrinted := false, events := [],
      fs := env.fs0, childTrace := none, sessionTrace := none,
      sessionPortMap := none, portmap := st.portmap }
  else
    match st.socketFile with
    | none => runAcceptLoop st env env.fs0 []
    | some fspec =>
      let r := save_socket_id_to_file env.socketId fspec env.fs0
                 env.createDirErr env.writeErr
      if r.1.isFail then
        { outcome := some (.returned 1), usagePrinted := false,
          events := r.2.2, fs := r.2.1, childTrace := none,
          sessionTrace := none, sessionPortMap := none, portmap := st.portmap }
      else runAcceptLoop st env r.2.1 r.2.2

/-- The whole environment of one `main_platform` run. -/
structure MainEnv where
  opts : List OptEvent
  setupLoggingOk : Bool
  childEnv : ChildEnv
  parentEnv : ParentEnv
deriving Repr, DecidableEq

/-- Embeds `main_platform` (lines 246-518): parse options, run the startup checks,
then branch: a supplied token selects child mode, otherwise parent mode runs
the accept loop. -/
def main_platform (env : MainEnv) : MainOut :=
  match afterParse (parseOptions env.opts) env.setupLoggingOk with
  | .exit o usage =>
    { outcome := some o, usagePrinted := usage, events := [],
      fs := env.parentEnv.fs0, childTrace := none, sessionTrace := none,
      sessionPortMap := none, portmap := (parseOptions env.opts).portmap }
  | .proceed st =>
    if st.fd.isSome then
      let c := childMode st env.childEnv
      { outcome := some c.outcome, usagePrinted := false, events := [],
        fs := env.parentEnv.fs0, childTrace := c.trace, sessionTrace := none,
        sessionPortMap := c.sessionPortMap, portmap := st.portmap }
    else parentMode st env.parentEnv

/-! ## Lock sites of the global portmap (lines 152-158, 231-234, 466-490) -/

/-- One call site in lldb-platform.cpp that operates on the global
`gdbserver_portmap` after concurrency begins (worker children spawned, reaper
callback installed).  `callerLocks` records whether the call site itself wraps
the operation in a `std::lock_guard`; `mutexLine` is the declaration line of
the mutex it takes. -/
structure PortmapAccessSite where
  description : String
  line : Nat
  callerLocks : Bool
  mutexLine : Nat
deriving Repr, DecidableEq

/-- Declaration line of `gdbserver_portmap_mutex` (line 153). -/
def gdbserver_portmap_mutex_line : Nat := 153

/-- The four concurrent-phase portmap call sites of lldb-platform.cpp: the exit
reaper frees by process (line 157), the spawner associates (line 233), the
accept loop allocates (line 470) and frees a reserved port after a spawn
failure (line 489).  Each wraps its operation in a caller-side
`std::lock_guard` on `gdbserver_portmap_mutex`. -/
def portmapAccessSites : List PortmapAccessSite :=
  [⟨"spawn_process_reaped: FreePortForProcess", 157, true, 153⟩,
   ⟨"spawn_process: AssociatePortWithProcess", 233, true, 153⟩,
   ⟨"accept loop: GetNextAvailablePort", 470, true, 153⟩,
   ⟨"accept loop: FreePort after spawn failure", 489, true, 153⟩]

/-! ## Helper lemmas -/

/-- No server-mode iteration produces a filesystem event. -/
theorem serverIteration_no_fs (pm : PortMap) (e : IterEnv) :
    ∀ ev ∈ (serverIteration pm e).events, ev.isFsEvent = false := by
  intro ev hev
  cases hae : e.acceptErr with
  | some s => simp [serverIteration, hae] at hev
  | none =>
    cases hp : pm.GetNextAvailablePort with
    | none =>
      simp [serverIteration, hae, hp] at hev
      rcases hev with h | h | h | h <;> subst h <;> rfl
    | some p =>
      by_cases hf : (spawn_process e.spawnEnv p pm).status.isFail = true
      · simp [serverIteration, hae, hp, hf] at hev
        rcases hev with h | h | h | h | h <;> subst h <;> rfl
      · simp [serverIteration, hae, hp, hf] at hev
        rcases hev with h | h | h | h <;> subst h <;> rfl

/-- No server-mode accept loop produces a filesystem event. -/
theorem serverLoop_no_fs (l : List IterEnv) (pm : PortMap) :
    ∀ ev ∈ (serverLoop pm l).events, ev.isFsEvent = false := by
  induction l generalizing pm with
  | nil => intro ev hev; simp [serverLoop] at hev
  | cons e rest ih =>
    intro ev hev
    cases hx : (serverIteration pm e).exit with
    | some o =>
      simp only [serverLoop, hx] at hev
      exact serverIteration_no_fs pm e ev hev
    | none =>
      simp only [serverLoop, hx] at hev
      rcases List.mem_append.mp hev with h | h
      · exact serverIteration_no_fs pm e ev h
      · exact ih _ ev h

/-- The accept loop only appends non-filesystem events to its prefix and never
touches the filesystem state it is given. -/
theorem runAcceptLoop_shape (st : OptState) (env : ParentEnv) (fsNow : FS)
    (pre : List PEvent) :
    ∃ rest, (runAcceptLoop st env fsNow pre).events = pre ++ rest ∧
      (∀ ev ∈ rest, ev.isFsEvent = false) ∧
      (runAcceptLoop st env fsNow pre).fs = fsNow := by
  cases hsrv : st.server with
  | true =>
    refine ⟨(serverLoop st.portmap env.iters).events, ?_,
      serverLoop_no_fs env.iters st.portmap, ?_⟩ <;> simp [runAcceptLoop, hsrv]
  | false =>
    cases hit : env.iters with
    | nil =>
      refine ⟨[], ?_, ?_, ?_⟩ <;> simp [runAcceptLoop, hsrv, hit]
    | cons ienv rest2 =>
      cases hae : ienv.acceptErr with
      | some s =>
        refine ⟨[], ?_, ?_, ?_⟩ <;> simp [runAcceptLoop, hsrv, hit, hae]
      | none =>
        refine ⟨[.accepted, .connectionEstablished, .acceptorReset,
                 .sessionRun, .serverExiting], ?_, ?_, ?_⟩ <;>
          simp [runAcceptLoop, hsrv, hit, hae, PEvent.isFsEvent]

/-- Setting a file makes its content visible at its path. -/
theorem FS.lookup_setFile (fs : FS) (p c : String) :
    (fs.setFile p c).lookup p = some c := by
  simp [FS.lookup, FS.setFile, List.find?]

/-- Setting a file does not change the directories. -/
theorem FS.dirs_setFile (fs : FS) (p c : String) : (fs.setFile p c).dirs = fs.dirs := rfl

/-- Removing a file does not change the directories. -/
theorem FS.dirs_removeFile (fs : FS) (p : String) : (fs.removeFile p).dirs = fs.dirs := rfl

/-- After `create_directory`, the directory exists. -/
theorem mem_create_directory (fs : FS) (d : String) :
    d ∈ (create_directory fs d).dirs := by
  by_cases h : d ∈ fs.dirs <;> simp [create_directory, h]

/-! ## Claim theorems -/

/-- Claim C1: in multiplexing (server) mode, every iteration with a successful
accept allocates from the port pool; when no port is available the daemon emits
the dropping diagnostic, drops the connection and leaves the pool unchanged;
when a port is available the connection is delegated to `spawn_process`; in
either case the iteration never terminates the process (port exhaustion and
spawn failure are never fatal) and the loop continues accepting. -/
theorem C1_server_iteration_never_fatal (pm : PortMap) (env : IterEnv)
    (ha : env.acceptErr = none) :
    (serverIteration pm env).exit = none ∧
    (pm.GetNextAvailablePort = none →
      (serverIteration pm env).events =
        [.accepted, .connectionEstablished, .droppedNoPort, .connDeleted] ∧
      (serverIteration pm env).portmap = pm) ∧
    (∀ p, pm.GetNextAvailablePort = some p →
      PEvent.spawnAttempt p ∈ (serverIteration pm env).events ∧
      PEvent.droppedNoPort ∉ (serverIteration pm env).events) := by
  cases hp : pm.GetNextAvailablePort with
  | none =>
    refine ⟨?_, ?_, ?_⟩ <;> simp [serverIteration, ha, hp]
  | some p =>
    by_cases hf : (spawn_process env.spawnEnv p pm).status.isFail = true <;>
      refine ⟨?_, ?_, ?_⟩ <;> simp [serverIteration, ha, hp, hf]

/-- Claim C1, instantiated: an iteration over an exhausted pool and an
iteration over a pool with a free port both leave the loop running. -/
theorem C1_witness :
    (serverIteration ⟨[(5000, some 7)]⟩ ⟨none, ⟨none, none, 42, none⟩⟩).exit = none ∧
    (serverIteration ⟨[(5000, none)]⟩ ⟨none, ⟨none, none, 42, none⟩⟩).exit = none :=
  ⟨(C1_server_iteration_never_fatal ⟨[(5000, some 7)]⟩ ⟨none, ⟨none, none, 42, none⟩⟩ rfl).1,
   (C1_server_iteration_never_fatal ⟨[(5000, none)]⟩ ⟨none, ⟨none, none, 42, none⟩⟩ rfl).1⟩

/-- Claim C2: when `Host::LaunchProcess` fails, `spawn_process` returns that
error with no port association and an unchanged portmap; when the launch
succeeds with a valid pid but completing the socket handoff fails, the spawned
worker is killed and the handoff error is returned; and in the accept loop a
failed spawn makes the caller free the reserved port and continue accepting. -/
theorem C2_spawn_failure_handling (env : SpawnEnv) (p : Nat) (pm : PortMap) :
    (∀ e, env.sharedSocketErr = none → env.launchErr = some e →
      spawn_process env p pm = ⟨.fail e, pm, false, none⟩) ∧
    (env.sharedSocketErr = none → env.launchErr = none →
     env.childPid ≠ LLDB_INVALID_PROCESS_ID →
     ∀ e, env.completeSendingErr = some e →
      (spawn_process env p pm).status = .fail e ∧
      (spawn_process env p pm).killed = some env.childPid ∧
      (spawn_process env p pm).associated = true) ∧
    (∀ ienv : IterEnv, ienv.acceptErr = none → ienv.spawnEnv = env →
      pm.GetNextAvailablePort = some p →
      (spawn_process env p pm).status.isFail = true →
      (serverIteration pm ienv).portmap = (spawn_process env p pm).portmap.FreePort p ∧
      (serverIteration pm ienv).exit = none) := by
  refine ⟨?_, ?_, ?_⟩
  · intro e h1 h2
    simp [spawn_process, h1, h2]
  · intro h1 h2 h3 e h4
    simp [spawn_process, h1, h2, h3, h4]
  · intro ienv hae hse hport hfail
    simp [serverIteration, hae, hse, hport, hfail]

/-- Claim C2, instantiated: a failed launch returns the error without
association; a failed handoff kills the worker; the loop frees the port and
keeps running. -/
theorem C2_witness :
    spawn_process ⟨none, some ("launch failed"), 0, none⟩ 5000 ⟨[(5000, none)]⟩ =
      ⟨.fail ("launch failed"), ⟨[(5000, none)]⟩, false, none⟩ ∧
    ((spawn_process ⟨none, none, 42, some ("handoff failed")⟩ 5000 ⟨[(5000, none)]⟩).status =
        .fail ("handoff failed") ∧
     (spawn_process ⟨none, none, 42, some ("handoff failed")⟩ 5000 ⟨[(5000, none)]⟩).killed =
        some 42) ∧
    (serverIteration ⟨[(5000, none)]⟩ ⟨none, ⟨none, some ("launch failed"), 0, none⟩⟩).exit = none :=
  ⟨(C2_spawn_failure_handling ⟨none, some ("launch failed"), 0, none⟩ 5000 ⟨[(5000, none)]⟩).1
      ("launch failed") rfl rfl,
   ⟨((C2_spawn_failure_handling ⟨none, none, 42, some ("handoff failed")⟩ 5000 ⟨[(5000, none)]⟩).2.1
      rfl rfl (by decide) ("handoff failed") rfl).1,
    ((C2_spawn_failure_handling ⟨none, none, 42, some ("handoff failed")⟩ 5000 ⟨[(5000, none)]⟩).2.1
      rfl rfl (by decide) ("handoff failed") rfl).2.1⟩,
   ((C2_spawn_failure_handling ⟨none, some ("launch failed"), 0, none⟩ 5000 ⟨[(5000, none)]⟩).2.2
      ⟨none, ⟨none, some ("launch failed"), 0, none⟩⟩ rfl rfl (by decide) (by decide)).2⟩

/-- Concrete session environment refuting the claim that a stub-launch failure
is reported to the peer: connected, one inferior argument, launch fails. -/
def c4env : ClientEnv :=
  ⟨true, [("/bin/app")], ⟨false, "boom", 0, none, ""⟩, []⟩

/-- Claim C4, counterexample: at `c4env` the stub launch fails and the failure
message goes to the standard error stream; nothing is sent to the peer over
the connection, so the failure is not reported to the peer as claimed (the
session does proceed into the packet loop). -/
theorem C4_counterexample :
    (client_handle c4env).stderrOut = [("failed to start gdbserver: boom")] ∧
    reportedToPeer (client_handle c4env) = false ∧
    (client_handle c4env).loopEntered = true := by
  refine ⟨rfl, rfl, rfl⟩

/-- Claim C4, amended: a debug stub is launched at most once per session and
only when the session is connected and inferior arguments were supplied; a
stub-launch failure is reported on the standard error stream (not sent to the
peer), leaves no pending stub, and is not fatal — the session still proceeds
into the packet-exchange loop. -/
theorem C4_stub_launch_at_most_once (env : ClientEnv) :
    ((client_handle env).stubLaunchAttempts ≤ 1) ∧
    ((client_handle env).stubLaunchAttempts = 1 →
      env.connected = true ∧ env.inferiorArgs ≠ []) ∧
    (env.connected = true → env.inferiorArgs ≠ [] → env.launch.success = false →
      (client_handle env).stderrOut =
        [("failed to start gdbserver: " ++ env.launch.errMsg)] ∧
      reportedToPeer (client_handle env) = false ∧
      (client_handle env).pendingGdbServer = none ∧
      (client_handle env).loopEntered = true) := by
  cases hc : env.connected with
  | false => refine ⟨?_, ?_, ?_⟩ <;> simp [client_handle, hc, reportedToPeer]
  | true =>
    cases ha : env.inferiorArgs with
    | nil => refine ⟨?_, ?_, ?_⟩ <;> simp [client_handle, hc, ha, reportedToPeer]
    | cons a l =>
      cases hs : env.launch.success with
      | true => refine ⟨?_, ?_, ?_⟩ <;> simp [client_handle, hc, ha, hs, reportedToPeer]
      | false => refine ⟨?_, ?_, ?_⟩ <;> simp [client_handle, hc, ha, hs, reportedToPeer]

/-- Claim C4, amended, instantiated at `c4env`. -/
theorem C4_witness :
    (client_handle c4env).pendingGdbServer = none ∧
    (client_handle c4env).loopEntered = true :=
  ⟨((C4_stub_launch_at_most_once c4env).2.2 rfl (by decide) rfl).2.2.1,
   ((C4_stub_launch_at_most_once c4env).2.2 rfl (by decide) rfl).2.2.2⟩

/-- Claim C9: in a connected session with inferior arguments, when the
stub-launch collaborator reports success the optional port is dereferenced
unconditionally — the dereference is invalid exactly when the success result
carries an empty port, and with a present port the pending stub records its
value. -/
theorem C9_success_port_dereference (env : ClientEnv)
    (hc : env.connected = true) (ha : env.inferiorArgs ≠ [])
    (hs : env.launch.success = true) :
    ((client_handle env).invalidDeref = true ↔ env.launch.port = none) ∧
    (∀ p, env.launch.port = some p →
      (client_handle env).pendingGdbServer =
        some (env.launch.pid, p, env.launch.socketName)) := by
  cases henv : env.inferiorArgs with
  | nil => exact absurd henv ha
  | cons a l =>
    cases hp : env.launch.port with
    | none => simp [client_handle, hc, hs, henv, hp]
    | some p => simp [client_handle, hc, hs, henv, hp]

/-- Claim C9, instantiated: a successful launch carrying port 5 is recorded as
the pending stub. -/
theorem C9_witness :
    (client_handle ⟨true, [("/bin/app")], ⟨true, "", 7, some 5, "sock"⟩, []⟩).pendingGdbServer =
      some (7, 5, "sock") :=
  (C9_success_port_dereference ⟨true, [("/bin/app")], ⟨true, "", 7, some 5, "sock"⟩, []⟩
    rfl (by decide) rfl).2 5 rfl

/-- Claim C3: in single-shot (non-server) sub-mode, a first successful accept
runs exactly one session directly via `client_handle`, the whole configured
portmap is transferred to that session, the acceptor is destroyed before the
session runs (no further accepting), and after the session the daemon prints
the exiting message and returns 0 — the accept loop body runs once regardless
of how many further connections the environment could supply. -/
theorem C3_single_shot_one_session (env : MainEnv) (st : OptState)
    (ienv : IterEnv) (rest : List IterEnv)
    (hp : afterParse (parseOptions env.opts) env.setupLoggingOk = .proceed st)
    (hfd : st.fd = none) (hserver : st.server = false)
    (hsf : st.socketFile = none)
    (hacc : env.parentEnv.acceptorCreateErr = none)
    (hlisten : env.parentEnv.listenErr = none)
    (hiters : env.parentEnv.iters = ienv :: rest)
    (hok : ienv.acceptErr = none) :
    (main_platform env).outcome = some (.returned 0) ∧
    (main_platform env).sessionTrace = some (client_handle env.parentEnv.sessionEnv) ∧
    (main_platform env).sessionPortMap = some st.portmap ∧
    (main_platform env).events =
      [.accepted, .connectionEstablished, .acceptorReset, .sessionRun, .serverExiting] := by
  refine ⟨?_, ?_, ?_, ?_⟩ <;>
    simp [main_platform, hp, hfd, parentMode, hacc, hlisten, hsf,
          runAcceptLoop, hserver, hiters, hok]

/-- Configured options of the single-shot witness run: only a listen address. -/
def c3opts : List OptEvent := [OptEvent.listen ("tcp://localhost:1234")]

/-- Session environment of the single-shot witness run. -/
def c3clientEnv : ClientEnv := ⟨true, [], ⟨true, "", 0, none, ""⟩, [⟨true, false, true⟩]⟩

/-- Whole environment of the single-shot witness run: one incoming
connection. -/
def c3env : MainEnv :=
  ⟨c3opts, true, ⟨none, c3clientEnv⟩,
   ⟨none, none, "sid", none, none, ⟨[], []⟩,
    [⟨none, ⟨none, none, 0, none⟩⟩], c3clientEnv⟩⟩

/-- Claim C3, instantiated on a concrete single-shot run. -/
theorem C3_witness :
    (main_platform c3env).outcome = some (.returned 0) ∧
    (main_platform c3env).sessionPortMap = some PortMap.empty :=
  ⟨(C3_single_shot_one_session c3env
      {initOptState with listenHostPort := ("tcp://localhost:1234")}
      ⟨none, ⟨none, none, 0, none⟩⟩ [] (by decide) rfl rfl rfl rfl rfl rfl rfl).1,
   (C3_single_shot_one_session c3env
      {initOptState with listenHostPort := ("tcp://localhost:1234")}
      ⟨none, ⟨none, none, 0, none⟩⟩ [] (by decide) rfl rfl rfl rfl rfl rfl rfl).2.2.1⟩

/-- Options with a bad port value: 99999 does not fit in `uint16_t`, so
`to_integer` fails and configuration error 2 is recorded. -/
def c5optsBadPort : List OptEvent :=
  [OptEvent.listen ("tcp://localhost:1234"), OptEvent.gdbserverPort ("99999")]

/-- Options with an inverted port range: min 3000 above max 2000 records
configuration error 3. -/
def c5optsInvertedRange : List OptEvent :=
  [OptEvent.listen ("tcp://localhost:1234"), OptEvent.minPort ("3000"),
   OptEvent.maxPort ("2000")]

/-- Claim C5: the claim is right and the code is wrong.  The getopt loop
records distinct nonzero configuration-error codes (2 for a bad port value, 3
for an inverted range), and line 386 even reads `exit(option_error)` — but
`display_usage` is called first and itself calls `exit(0)` (line 98), so every
such configuration error makes the process print usage and exit with status 0,
never with the recorded nonzero code.  A help request also exits 0, as the
claim says. -/
theorem C5_config_errors_exit_zero :
    (parseOptions c5optsBadPort).optionError = 2 ∧
    afterParse (parseOptions c5optsBadPort) true = .exit (.exited 0) true ∧
    (parseOptions c5optsInvertedRange).optionError = 0 ∧
    afterParse (parseOptions c5optsInvertedRange) true = .exit (.exited 0) true ∧
    afterParse (parseOptions [OptEvent.helpOrUnknown,
      OptEvent.listen ("tcp://localhost:1234")]) true = .exit (.exited 0) true := by
  refine ⟨rfl, by decide, rfl, by decide, by decide⟩

/-- Options supplying both an explicit allowed port (`-P 5000`) and a range
`[5100, 5200]`. -/
def c6opts : List OptEvent :=
  [OptEvent.listen ("tcp://localhost:1234"), OptEvent.gdbserverPort ("5000"),
   OptEvent.minPort ("5100"), OptEvent.maxPort ("5200")]

/-- Claim C6, counterexample: with both `-P 5000` and the range `[5100, 5200]`
configured, startup records no configuration error and is not rejected — it
proceeds to listening, and the range portmap silently replaces the explicit
allow-list entry (port 5000, allowed during parsing, is no longer allowed). -/
theorem C6_counterexample :
    (5000 ∈ (parseOptions c6opts).portmap.allowed) ∧
    (parseOptions c6opts).optionError = 0 ∧
    startupRejected (afterParse (parseOptions c6opts) true) = false ∧
    startupPortMap (afterParse (parseOptions c6opts) true) =
      some (PortMap.range 5100 5200) ∧
    5000 ∉ (PortMap.range 5100 5200).allowed := by
  refine ⟨by decide, rfl, by decide, by decide, by decide⟩

/-- Claim C6, amended: supplying both an explicit `-P` allow-list entry and a
valid `[min,max]` range is not rejected; startup proceeds with no
configuration error and the range portmap replaces whatever the explicit
entries had built. -/
theorem C6_range_replaces_explicit_ports (st : OptState)
    (h1 : st.minPort ≠ 0) (h2 : st.minPort < st.maxPort)
    (h3 : st.showUsage = false) (h4 : st.optionError = 0)
    (h5 : ¬(st.listenHostPort = "" ∧ st.fd = none)) :
    afterParse st true =
      .proceed {st with portmap := PortMap.range st.minPort st.maxPort} := by
  simp [afterParse, h1, h2, h3, h4, h5]

/-- Claim C6, amended, instantiated at the counterexample options. -/
theorem C6_witness :
    afterParse (parseOptions c6opts) true =
      .proceed {parseOptions c6opts with
        portmap := PortMap.range (parseOptions c6opts).minPort
                     (parseOptions c6opts).maxPort} :=
  C6_range_replaces_explicit_ports (parseOptions c6opts)
    (by decide) (by decide) (by decide) (by decide) (by decide)

/-- Claim C7: when a discovery (socket) file is configured and the write
succeeds, parent-mode startup writes it exactly once, before any connection is
accepted: the event trace starts with creating the missing parent directory,
writing the full socket id to a temporary file, and publishing it onto the
destination path (write-then-publish, never in place), and no later event
touches the filesystem; afterwards the file contains exactly the bound
endpoint identifier and the parent directory exists. -/
theorem C7_discovery_file_written_once (st : OptState) (env : ParentEnv)
    (fspec : FileSpec) (hs : st.socketFile = some fspec)
    (h1 : env.acceptorCreateErr = none) (h2 : env.listenErr = none)
    (h3 : env.createDirErr = none) (h4 : env.writeErr = none) :
    ∃ rest, (parentMode st env).events =
        [.createdDir fspec.dir,
         .wroteTemp (fspec.GetPath ++ ".tmp") env.socketId,
         .published (fspec.GetPath ++ ".tmp") fspec.GetPath] ++ rest ∧
      (∀ ev ∈ rest, ev.isFsEvent = false) ∧
      (parentMode st env).fs.lookup fspec.GetPath = some env.socketId ∧
      fspec.dir ∈ (parentMode st env).fs.dirs := by
  have hmode : parentMode st env =
      runAcceptLoop st env
        ((((create_directory env.fs0 fspec.dir).setFile (fspec.GetPath ++ ".tmp")
            env.socketId).removeFile (fspec.GetPath ++ ".tmp")).setFile fspec.GetPath
            env.socketId)
        [.createdDir fspec.dir, .wroteTemp (fspec.GetPath ++ ".tmp") env.socketId,
         .published (fspec.GetPath ++ ".tmp") fspec.GetPath] := by
    simp [parentMode, h1, h2, hs, save_socket_id_to_file, h3, h4, Status.isFail]
  rcases runAcceptLoop_shape st env
      ((((create_directory env.fs0 fspec.dir).setFile (fspec.GetPath ++ ".tmp")
          env.socketId).removeFile (fspec.GetPath ++ ".tmp")).setFile fspec.GetPath
          env.socketId)
      [.createdDir fspec.dir, .wroteTemp (fspec.GetPath ++ ".tmp") env.socketId,
       .published (fspec.GetPath ++ ".tmp") fspec.GetPath] with
    ⟨rest, hev, hnofs, hfs⟩
  refine ⟨rest, ?_, hnofs, ?_, ?_⟩
  · rw [hmode, hev]
  · rw [hmode, hfs]
    exact FS.lookup_setFile _ _ _
  · rw [hmode, hfs]
    exact mem_create_directory env.fs0 fspec.dir

/-- Option state of the C7 witness run: listen address, socket file, server
mode. -/
def c7state : OptState :=
  {initOptState with
    listenHostPort := ("tcp://localhost:1234"),
    socketFile := some ⟨("/tmp/d"), ("socket-id")⟩,
    server := true}

/-- Parent environment of the C7 witness run: no incoming connection. -/
def c7penv : ParentEnv := ⟨none, none, "sid", none, none, ⟨[], []⟩, [], c3clientEnv⟩

/-- Claim C7, instantiated: a server-mode run with a configured socket file and
no incoming connection writes the discovery file before accepting. -/
theorem C7_witness :
    ∃ rest,
      (parentMode c7state c7penv).events =
        [.createdDir ("/tmp/d"),
         .wroteTemp (FileSpec.GetPath ⟨("/tmp/d"), ("socket-id")⟩ ++ ".tmp") "sid",
         .published (FileSpec.GetPath ⟨("/tmp/d"), ("socket-id")⟩ ++ ".tmp")
           (FileSpec.GetPath ⟨("/tmp/d"), ("socket-id")⟩)] ++ rest ∧
      (∀ ev ∈ rest, ev.isFsEvent = false) ∧
      (parentMode c7state c7penv).fs.lookup
        (FileSpec.GetPath ⟨("/tmp/d"), ("socket-id")⟩) = some "sid" ∧
      ("/tmp/d") ∈ (parentMode c7state c7penv).fs.dirs :=
  C7_discovery_file_written_once c7state c7penv
    ⟨("/tmp/d"), ("socket-id")⟩ rfl rfl rfl rfl rfl

/-- Claim C8, counterexample (proving the negation): it is not the case that
the portmap call sites need no external locking — in the source every
concurrent-phase operation on the global portmap is wrapped in a caller-side
`std::lock_guard`; synchronization is external at the call sites, not internal
to the pool. -/
theorem C8_counterexample :
    ¬ (∀ s ∈ portmapAccessSites, s.callerLocks = false) := by
  decide

/-- Claim C8, amended: every concurrent-phase portmap operation (allocation in
the accept loop, association in the worker spawner, the free after a spawn
failure, and the asynchronous exit-reaper reclaim) takes the same caller-side
global mutex — so the reaper reclaim takes the same lock as allocation and
association — and under that serialization a port associated with a worker is
never returned by a subsequent allocation until it is freed. -/
theorem C8_locking_discipline :
    (portmapAccessSites.all
      (fun s => s.callerLocks && (s.mutexLine == gdbserver_portmap_mutex_line))) = true ∧
    (∀ (pm : PortMap) (p pid q : Nat),
      (pm.AssociatePortWithProcess p pid).GetNextAvailablePort = some q → q ≠ p) := by
  refine ⟨by decide, ?_⟩
  intro pm p pid q hq
  rw [PortMap.AssociatePortWithProcess, PortMap.GetNextAvailablePort] at hq
  rcases Option.map_eq_some'.mp hq with ⟨a, hfind, ha⟩
  have hpred := List.find?_some hfind
  have hmem := List.mem_of_find?_eq_some hfind
  rcases List.mem_map.mp hmem with ⟨e0, _, hfe0⟩
  have hfe : (if e0.1 = p then (e0.1, some pid) else e0) = a := hfe0
  by_cases hep : e0.1 = p
  · rw [if_pos hep] at hfe
    rw [← hfe] at hpred
    simp at hpred
  · rw [if_neg hep] at hfe
    intro hqp
    apply hep
    rw [hfe, ha, hqp]

/-- Claim C8, amended, instantiated: after associating port 5000 of the range
[5000, 5002] with worker 7, allocation returns 5001, not 5000. -/
theorem C8_witness :
    ((PortMap.range 5000 5002).AssociatePortWithProcess 5000 7).GetNextAvailablePort =
      some 5001 ∧ (5001 : Nat) ≠ 5000 :=
  ⟨by decide,
   C8_locking_discipline.2 (PortMap.range 5000 5002) 5000 7 5001 (by decide)⟩

/-- Claim C10: in child mode (token supplied, no listen address), once the
handoff token resolves to a live socket the child runs the session and returns
0, whatever the packet loop did (normal completion, interrupt, or a
protocol/read error breaking the loop). -/
theorem C10_child_exits_zero (env : MainEnv) (st : OptState)
    (hp : afterParse (parseOptions env.opts) env.setupLoggingOk = .proceed st)
    (hfd : st.fd.isSome = true) (hlisten : st.listenHostPort = "")
    (hresolve : env.childEnv.resolveErr = none) :
    (main_platform env).outcome = some (.returned 0) ∧
    (main_platform env).childTrace = some (client_handle env.childEnv.clientEnv) := by
  refine ⟨?_, ?_⟩ <;> simp [main_platform, hp, hfd, childMode, hlisten, hresolve]

/-- Session environment of the child-mode witness run: the packet loop ends by
a read error (non-success result). -/
def c10clientEnv : ClientEnv := ⟨true, [], ⟨true, "", 0, none, ""⟩, [⟨false, false, false⟩]⟩

/-- Whole environment of the child-mode witness run. -/
def c10env : MainEnv :=
  ⟨[OptEvent.childPlatformFd ("5")], true, ⟨none, c10clientEnv⟩,
   ⟨none, none, "", none, none, ⟨[], []⟩, [], c10clientEnv⟩⟩

/-- Claim C10, instantiated: the child returns 0 although its packet loop ended
in a read error. -/
theorem C10_witness :
    (main_platform c10env).outcome = some (.returned 0) :=
  (C10_child_exits_zero c10env {initOptState with fd := some 5}
    (by decide) rfl rfl rfl).1

end LLDBPlatform
